import Mathlib

/-!
Shallow embedding of the player persistence orchestration in
src/io/iologindata.cpp of the Canary server: the load pipeline
(IOLoginData::loadPlayer and loadPlayerById), the save transaction
(IOLoginData::savePlayer / savePlayerGuard), the online status tracker
(IOLoginData::updateOnlineStatus), the authentication gate
(IOLoginData::gameWorldAuthentication) and the guid lookup
(IOLoginData::getGuidByName).

Collaborator step functions (IOLoginDataLoad::*, IOLoginDataSave::*) are
external to the shown source; they are abstracted by success/failure
environments, so that every theorem quantifies over all collaborator
behaviours. A failing step in the C++ code either returns false or throws;
both abort the remaining steps, which is what the environments model.
-/

/-- the in-memory player aggregate; the orchestration code shown only tests
it for null and reads its display name for error messages. -/
structure Player where
  name : String
deriving DecidableEq

/-- an opaque fetched row cursor (DBResult_ptr); the orchestrator only tests
it for null and hands it to the collaborator steps. -/
structure DBResult where
  rowId : Nat
deriving DecidableEq

/-- the saver collaborators invoked by IOLoginData::savePlayerGuard. -/
inductive SaveStep
  | first
  | stash
  | spells
  | kills
  | bestiarySystem
  | item
  | depotItems
  | rewardItems
  | inbox
  | preyClass
  | taskHuntingClass
  | forgeHistory
  | bosstiary
  | wheel
  | storage
deriving DecidableEq

/-- the call order of the saver steps in IOLoginData::savePlayerGuard. -/
def saveStepOrder : List SaveStep :=
  [.first, .stash, .spells, .kills, .bestiarySystem, .item, .depotItems,
   .rewardItems, .inbox, .preyClass, .taskHuntingClass, .forgeHistory,
   .bosstiary, .wheel, .storage]

/-- the durable store: a list of writes, each tagged with the saver step
that performed it. -/
abbrev Store := List (SaveStep × Nat)

/-- behaviour of the saver collaborators: whether each step succeeds, and
the payloads of the writes it performs inside the transaction. -/
structure SaveEnv where
  stepOk : SaveStep → Bool
  stepWrites : SaveStep → List Nat

/-- a saver step appends its writes to the transactional store. -/
def stepApply (env : SaveEnv) (s : SaveStep) (st : Store) : Store :=
  st ++ (env.stepWrites s).map fun d => (s, d)

/-- runs saver steps in order inside the transaction scope: each step
performs its writes and reports success; a failing step aborts the
remaining steps (the C++ code throws DatabaseException there). Returns
(every step succeeded, transactional store, executed-step trace). -/
def runSaveSteps (env : SaveEnv) : List SaveStep → Store → Bool × Store × List SaveStep
  | [], st => (true, st, [])
  | s :: rest, st =>
    let st1 := stepApply env s st
    if env.stepOk s then
      let r := runSaveSteps env rest st1
      (r.1, r.2.1, s :: r.2.2)
    else
      (false, st1, [s])

/-- IOLoginData::savePlayerGuard: fails at once on a null player (the C++
code throws), otherwise runs the fixed saver steps in order. -/
def savePlayerGuard (player : Option Player) (env : SaveEnv) (st : Store) : Bool × Store × List SaveStep :=
  match player with
  | none => (false, st, [])
  | some _ => runSaveSteps env saveStepOrder st

/-- Modelled from the spec: DBTransaction::executeWithinTransaction, whose
implementation is not among the provided sources, brackets the body in a
transaction scope that makes all of the body's writes durable when the body
succeeds and the commit succeeds, and rolls every write back (restoring the
pre-call store) when the body fails or the commit itself fails; a commit
failure is reported as failure, never as success. -/
def executeWithinTransaction (commitOk : Bool) (st : Store) (body : Store → Bool × Store × List SaveStep) : Bool × Store × List SaveStep :=
  let r := body st
  if r.1 && commitOk then (true, r.2.1, r.2.2) else (false, st, r.2.2)

/-- IOLoginData::savePlayer: runs savePlayerGuard within a transaction scope. -/
def savePlayer (player : Option Player) (env : SaveEnv) (commitOk : Bool) (st : Store) : Bool × Store × List SaveStep :=
  executeWithinTransaction commitOk st (savePlayerGuard player env)

/-- the loader collaborators invoked by IOLoginData::loadPlayer. -/
inductive LoadStep
  | first
  | experience
  | blessings
  | conditions
  | defaultOutfit
  | skullSystem
  | skill
  | kills
  | guild
  | stashItems
  | bestiaryCharms
  | inventoryItems
  | storeInbox
  | depotItems
  | rewardItems
  | inboxItems
  | storageMap
  | vip
  | preyClass
  | taskHuntingClass
  | instantSpellList
  | forgeHistory
  | bosstiary
  | initializeSystem
  | updateSystem
deriving DecidableEq

/-- the loader steps that always run, in source order, before the
disableIrrelevantInfo early return in IOLoginData::loadPlayer. -/
def loadStepsMinimal : List LoadStep :=
  [.first, .experience, .blessings, .conditions, .defaultOutfit, .skullSystem,
   .skill, .kills, .guild, .stashItems, .bestiaryCharms, .inventoryItems,
   .storeInbox, .depotItems, .rewardItems, .inboxItems, .storageMap, .vip,
   .preyClass, .taskHuntingClass, .instantSpellList]

/-- the final block of loader steps, skipped when disableIrrelevantInfo is
set: forge history, bosstiary, and the two system-initialization passes. -/
def irrelevantInfoSteps : List LoadStep :=
  [.forgeHistory, .bosstiary, .initializeSystem, .updateSystem]

/-- the full-mode loader step order. -/
def loadStepsFull : List LoadStep := loadStepsMinimal ++ irrelevantInfoSteps

/-- runs steps in order until the first failure (a throwing collaborator,
caught at the bottom of IOLoginData::loadPlayer); returns
(no step failed, executed-step trace). -/
def runSteps {α : Type} (ok : α → Bool) : List α → Bool × List α
  | [] => (true, [])
  | s :: rest =>
    if ok s then
      let r := runSteps ok rest
      (r.1, s :: r.2)
    else
      (false, [s])

/-- IOLoginData::loadPlayer: null-guards the result cursor and the player,
then runs the loader steps in order (all of them, or only the minimal list
when disableIrrelevantInfo is set); a step failure aborts the remaining
steps and the load returns false. Returns (success, executed-step trace). -/
def loadPlayer (player : Option Player) (result : Option DBResult) (disableIrrelevantInfo : Bool) (env : LoadStep → Bool) : Bool × List LoadStep :=
  if result.isNone || player.isNone then
    (false, [])
  else
    runSteps env (if disableIrrelevantInfo then loadStepsMinimal else loadStepsFull)

/-- IOLoginData::loadPlayerById: unique base-row lookup by id against the
players table, then loadPlayer on the fetched cursor; a lookup with no
matching row yields a null cursor. -/
def loadPlayerById (db : Nat → Option DBResult) (player : Option Player) (id : Nat) (disableIrrelevantInfo : Bool) (env : LoadStep → Bool) : Bool × List LoadStep :=
  loadPlayer player (db id) disableIrrelevantInfo env

/-- state touched by IOLoginData::updateOnlineStatus: the static in-process
map of guids currently tracked as online, the players_online metrics
counter, and the players_online table rows (player_id, world_id). -/
structure PresenceState where
  tracked : List Nat
  counter : Int
  table : List (Nat × Nat)
deriving DecidableEq

/-- IOLoginData::updateOnlineStatus: early-returns when logging in an
already-tracked guid or when the guid is zero; a login increments the
counter, inserts a presence row and records the guid in the map; a logout
decrements the counter, deletes the rows matching (guid, worldId) and
erases the guid from the map. -/
def updateOnlineStatus (worldId : Nat) (guid : Nat) (login : Bool) (st : PresenceState) : PresenceState :=
  if (login = true ∧ guid ∈ st.tracked) ∨ guid = 0 then
    st
  else if login then
    { tracked := guid :: st.tracked
      counter := st.counter + 1
      table := st.table ++ [(guid, worldId)] }
  else
    { tracked := st.tracked.erase guid
      counter := st.counter - 1
      table := st.table.filter fun r => decide (r.1 ≠ guid ∨ r.2 ≠ worldId) }

/-- the external account collaborator as seen by
IOLoginData::gameWorldAuthentication: the outcomes of Account::load (called
twice), Account::authenticate (session and password variants),
Account::getAccountPlayers, the per-character deletion markers of the
resolved player set (operator[] defaults an absent name to marker 0), and
the account id. -/
structure Account where
  loadOk : Bool
  reloadOk : Bool
  sessionAuthOk : Bool
  passwordOk : String → Bool
  playersOk : Bool
  deletion : String → Nat
  id : Nat

/-- tail of IOLoginData::gameWorldAuthentication after authentication:
reload the account, fetch its players, reject a non-zero deletion marker on
the requested character name, otherwise yield the account id. -/
def gameWorldAuthenticationTail (acc : Account) (characterName : String) : Option Nat :=
  if acc.reloadOk = false then none
  else if acc.playersOk = false then none
  else if acc.deletion characterName ≠ 0 then none
  else some acc.id

/-- IOLoginData::gameWorldAuthentication: load the account, authenticate by
session token or by password according to the configured auth type, then
run the player-set checks; yields the account id on success and no identity
on any failure. -/
def gameWorldAuthentication (authType : String) (acc : Account) (password characterName : String) : Option Nat :=
  if acc.loadOk = false then none
  else if authType = "session" then
    if acc.sessionAuthOk = false then none
    else gameWorldAuthenticationTail acc characterName
  else if acc.passwordOk password = false then none
  else gameWorldAuthenticationTail acc characterName

/-- IOLoginData::getGuidByName over an abstract name-to-id row lookup in the
current world partition: returns 0 when no row matches, otherwise the
stored id. -/
def getGuidByName (db : String → Option Nat) (name : String) : Nat :=
  match db name with
  | none => 0
  | some id => id

/-- position of an element in a list (the length when absent). -/
def idxIn {α : Type} [DecidableEq α] (a : α) : List α → Nat
  | [] => 0
  | x :: xs => if x = a then 0 else idxIn a xs + 1

/-- the success flag of runSteps is the conjunction of all step outcomes. -/
theorem runSteps_fst {α : Type} (ok : α → Bool) (l : List α) :
    (runSteps ok l).1 = l.all ok := by
  induction l with
  | nil => rfl
  | cons s rest ih =>
    cases h : ok s <;> simp [runSteps, h, ih]

/-- when every step succeeds, the trace of runSteps is the whole list. -/
theorem runSteps_trace_of_all {α : Type} (ok : α → Bool) (l : List α)
    (h : l.all ok = true) : (runSteps ok l).2 = l := by
  induction l with
  | nil => rfl
  | cons s rest ih =>
    simp only [List.all_cons, Bool.and_eq_true] at h
    simp [runSteps, h.1, ih h.2]

/-- the trace over an appended list: the second block runs exactly when the
whole first block succeeded. -/
theorem runSteps_trace_append {α : Type} (ok : α → Bool) (l l' : List α) :
    (runSteps ok (l ++ l')).2 =
      if l.all ok then l ++ (runSteps ok l').2 else (runSteps ok l).2 := by
  induction l with
  | nil => simp
  | cons s rest ih =>
    cases h : ok s with
    | false => simp [runSteps, h]
    | true =>
      simp only [List.cons_append, runSteps, h, if_true, List.all_cons, Bool.true_and,
        List.append_eq]
      rw [ih]
      by_cases hall : rest.all ok = true <;> simp [hall]

/-- a nonempty step list yields a nonempty trace. -/
theorem runSteps_trace_ne_nil {α : Type} (ok : α → Bool) (s : α) (rest : List α) :
    (runSteps ok (s :: rest)).2 ≠ [] := by
  cases h : ok s <;> simp [runSteps, h]

/-- the success flag of runSaveSteps is the conjunction of all step outcomes. -/
theorem runSaveSteps_fst (env : SaveEnv) (l : List SaveStep) (st : Store) :
    (runSaveSteps env l st).1 = l.all env.stepOk := by
  induction l generalizing st with
  | nil => rfl
  | cons s rest ih =>
    cases h : env.stepOk s <;> simp [runSaveSteps, h, ih]

/-- the trace of runSaveSteps coincides with the store-free runSteps trace. -/
theorem runSaveSteps_trace (env : SaveEnv) (l : List SaveStep) (st : Store) :
    (runSaveSteps env l st).2.2 = (runSteps env.stepOk l).2 := by
  induction l generalizing st with
  | nil => rfl
  | cons s rest ih =>
    cases h : env.stepOk s <;> simp [runSaveSteps, runSteps, h, ih]

/-- savePlayer succeeds exactly when the player is present, every saver step
succeeds and the commit succeeds. -/
theorem savePlayer_fst_iff (p : Option Player) (env : SaveEnv) (commitOk : Bool) (st : Store) :
    (savePlayer p env commitOk st).1 = true ↔
      p.isSome = true ∧ saveStepOrder.all env.stepOk = true ∧ commitOk = true := by
  cases p with
  | none => simp [savePlayer, executeWithinTransaction, savePlayerGuard]
  | some q =>
    simp only [savePlayer, executeWithinTransaction, savePlayerGuard, Option.isSome_some]
    by_cases h : ((runSaveSteps env saveStepOrder st).1 && commitOk) = true
    · rw [runSaveSteps_fst, Bool.and_eq_true] at h
      simp [Bool.and_eq_true, runSaveSteps_fst, h.1, h.2]
    · rw [if_neg h]
      rw [runSaveSteps_fst, Bool.and_eq_true] at h
      simp only [Bool.false_eq_true, false_iff]
      intro hc
      exact h ⟨hc.2.1, hc.2.2⟩

/-- when savePlayer fails, the store is rolled back to its pre-call state. -/
theorem savePlayer_rollback (p : Option Player) (env : SaveEnv) (commitOk : Bool) (st : Store)
    (h : (savePlayer p env commitOk st).1 = false) :
    (savePlayer p env commitOk st).2.1 = st := by
  cases p with
  | none => rfl
  | some q =>
    simp only [savePlayer, executeWithinTransaction, savePlayerGuard] at h ⊢
    by_cases hc : ((runSaveSteps env saveStepOrder st).1 && commitOk) = true
    · rw [if_pos hc] at h
      simp at h
    · rw [if_neg hc]

/-- the executed-step trace of savePlayer stops at the first failing step. -/
theorem savePlayer_trace (p : Option Player) (env : SaveEnv) (commitOk : Bool) (st : Store) :
    (savePlayer p env commitOk st).2.2 =
      (if p.isSome then (runSteps env.stepOk saveStepOrder).2 else []) := by
  cases p with
  | none => rfl
  | some q =>
    simp only [savePlayer, executeWithinTransaction, savePlayerGuard, Option.isSome_some, if_true]
    by_cases hc : ((runSaveSteps env saveStepOrder st).1 && commitOk) = true
    · rw [if_pos hc, runSaveSteps_trace]
    · rw [if_neg hc, runSaveSteps_trace]

/-- a concrete player aggregate used by the evaluation theorems. -/
def playerA : Player := ⟨"Alice"⟩

/-- a concrete fetched cursor used by the evaluation theorems. -/
def res1 : DBResult := ⟨1⟩

/-- a saver environment in which every step succeeds. -/
def saveEnvAllOk : SaveEnv := ⟨fun _ => true, fun _ => [3]⟩

/-- a saver environment in which the depot-items step fails. -/
def saveEnvFailDepot : SaveEnv :=
  ⟨fun s => decide (s ≠ SaveStep.depotItems), fun _ => [3]⟩

/-- a loader environment in which every step succeeds. -/
def loadEnvAllOk : LoadStep → Bool := fun _ => true

/-- Claim C1: savePlayer returns success exactly when the player aggregate
is present, every saver step succeeds and the transaction commit succeeds
(so a commit failure after all steps succeed is reported as failure, never
as success); whenever the call fails, the store is rolled back to its exact
pre-call state; and the executed-step trace stops at the first failing
step, so all remaining steps are skipped. -/
theorem save_atomicity (p : Option Player) (env : SaveEnv) (commitOk : Bool) (st : Store) :
    ((savePlayer p env commitOk st).1 = true ↔
      p.isSome = true ∧ saveStepOrder.all env.stepOk = true ∧ commitOk = true)
    ∧ ((savePlayer p env commitOk st).1 = false → (savePlayer p env commitOk st).2.1 = st)
    ∧ (savePlayer p env commitOk st).2.2 =
        (if p.isSome then (runSteps env.stepOk saveStepOrder).2 else []) :=
  ⟨savePlayer_fst_iff p env commitOk st,
   savePlayer_rollback p env commitOk st,
   savePlayer_trace p env commitOk st⟩

/-- Claim C1 evaluation: a concrete save in which the depot-items step
fails leaves the store in its pre-call state. -/
theorem save_atomicity_witness :
    (savePlayer (some playerA) saveEnvFailDepot true []).2.1 = [] :=
  (save_atomicity (some playerA) saveEnvFailDepot true []).2.1 (by decide)

/-- Claim C2: a successful save executed exactly the fixed saver step order
of the source, with no step omitted, repeated, or reordered. -/
theorem save_step_order (p : Option Player) (env : SaveEnv) (commitOk : Bool) (st : Store)
    (h : (savePlayer p env commitOk st).1 = true) :
    (savePlayer p env commitOk st).2.2 = saveStepOrder := by
  rcases (savePlayer_fst_iff p env commitOk st).1 h with ⟨hp, hall, hc⟩
  rw [savePlayer_trace, if_pos hp, runSteps_trace_of_all _ _ hall]

/-- Claim C2 evaluation: a concrete fully-successful save executed exactly
the fixed saver step order. -/
theorem save_step_order_witness :
    (savePlayer (some playerA) saveEnvAllOk true []).2.2 = saveStepOrder :=
  save_step_order (some playerA) saveEnvAllOk true [] (by decide)

/-- Claim C8: saving a null player aggregate fails: savePlayer returns
false, leaves the store exactly as it was, and executes no saver step. -/
theorem save_null_player (env : SaveEnv) (commitOk : Bool) (st : Store) :
    savePlayer none env commitOk st = (false, st, []) := rfl

/-- Claim C3: for every player, cursor and collaborator behaviour, the
minimal-mode loader trace starts the full-mode trace; the full step list is
exactly the minimal step list followed by the irrelevant-info block (forge
history, bosstiary, and the two system-initialization passes); and the
full-mode trace is the minimal-mode trace followed by that block's trace
exactly when the minimal run succeeded, so every step preceding the block
runs identically in both modes. -/
theorem load_minimal_subset_full (p : Option Player) (r : Option DBResult) (env : LoadStep → Bool) :
    ((loadPlayer p r true env).2 <+: (loadPlayer p r false env).2)
    ∧ loadStepsFull = loadStepsMinimal ++ irrelevantInfoSteps
    ∧ (loadPlayer p r false env).2 =
        (loadPlayer p r true env).2 ++
          (if (loadPlayer p r true env).1 = true then (runSteps env irrelevantInfoSteps).2
           else []) := by
  have key : (loadPlayer p r false env).2 =
      (loadPlayer p r true env).2 ++
        (if (loadPlayer p r true env).1 = true then (runSteps env irrelevantInfoSteps).2
         else []) := by
    by_cases hg : (r.isNone || p.isNone) = true
    · simp [loadPlayer, hg]
    · simp only [loadPlayer, hg, if_true, if_false, Bool.false_eq_true, loadStepsFull,
        if_neg, runSteps_fst]
      rw [runSteps_trace_append]
      by_cases hall : loadStepsMinimal.all env = true
      · rw [if_pos hall, if_pos hall, runSteps_trace_of_all _ _ hall]
      · rw [if_neg hall, if_neg hall, List.append_nil]
  exact ⟨⟨_, key.symm⟩, rfl, key⟩

/-- Claim C4: a load that reaches the step sequence and succeeds in full
mode executed exactly the fixed declared loader order; in that order the
base identity step precedes the inventory-tree step and every
container-dependent step, and the container-dependent steps (store inbox,
depot items, reward items, inbox items) all follow the inventory-tree step. -/
theorem load_step_order (p : Option Player) (r : Option DBResult) (env : LoadStep → Bool)
    (h : (loadPlayer p r false env).1 = true) :
    (loadPlayer p r false env).2 = loadStepsFull
    ∧ idxIn LoadStep.first loadStepsFull < idxIn LoadStep.inventoryItems loadStepsFull
    ∧ idxIn LoadStep.first loadStepsFull < idxIn LoadStep.storeInbox loadStepsFull
    ∧ idxIn LoadStep.first loadStepsFull < idxIn LoadStep.depotItems loadStepsFull
    ∧ idxIn LoadStep.first loadStepsFull < idxIn LoadStep.rewardItems loadStepsFull
    ∧ idxIn LoadStep.first loadStepsFull < idxIn LoadStep.inboxItems loadStepsFull
    ∧ idxIn LoadStep.inventoryItems loadStepsFull < idxIn LoadStep.storeInbox loadStepsFull
    ∧ idxIn LoadStep.inventoryItems loadStepsFull < idxIn LoadStep.depotItems loadStepsFull
    ∧ idxIn LoadStep.inventoryItems loadStepsFull < idxIn LoadStep.rewardItems loadStepsFull
    ∧ idxIn LoadStep.inventoryItems loadStepsFull < idxIn LoadStep.inboxItems loadStepsFull := by
  refine ⟨?_, by decide, by decide, by decide, by decide, by decide, by decide, by decide,
    by decide, by decide⟩
  by_cases hg : (r.isNone || p.isNone) = true
  · simp [loadPlayer, hg] at h
  · simp only [loadPlayer, hg, if_false, Bool.false_eq_true, if_neg] at h ⊢
    rw [runSteps_fst] at h
    exact runSteps_trace_of_all _ _ h

/-- Claim C4 evaluation: a concrete fully-successful full-mode load executed
exactly the declared loader step order. -/
theorem load_step_order_witness :
    (loadPlayer (some playerA) (some res1) false loadEnvAllOk).2 = loadStepsFull :=
  (load_step_order (some playerA) (some res1) loadEnvAllOk (by decide)).1

/-- Claim C7 counterexample: with the player aggregate present and only the
result cursor absent, loadPlayer already fails before running any step, so
the step-free guard failure is not reserved for the case where both the
aggregate target and the result handle are absent. -/
theorem load_null_guard_counterexample :
    ¬ ((loadPlayer (some playerA) none false loadEnvAllOk = (false, ([] : List LoadStep)))
        ↔ ((some playerA : Option Player).isNone = true
            ∧ (none : Option DBResult).isNone = true)) := by
  decide

/-- Claim C7 (amended): loadPlayer fails before executing any step exactly
when the player aggregate or the result cursor is absent (either one
suffices; the code reports both through the same boolean failure, with no
distinct error codes), and a base-row lookup by id that returns no row
produces an absent cursor and hence this same step-free failure. -/
theorem load_null_guard (p : Option Player) (r : Option DBResult) (d : Bool) (env : LoadStep → Bool) :
    (loadPlayer p r d env = (false, []) ↔ (p.isNone = true ∨ r.isNone = true))
    ∧ (∀ db : Nat → Option DBResult, ∀ id : Nat, db id = none →
        loadPlayerById db p id d env = (false, [])) := by
  constructor
  · constructor
    · intro h
      by_contra hab
      push_neg at hab
      rcases hab with ⟨hp, hr⟩
      have hg : (r.isNone || p.isNone) = false := by
        cases p <;> cases r <;> simp_all
      have h2 := congrArg Prod.snd h
      simp only [loadPlayer, hg, Bool.false_eq_true, if_false] at h2
      cases d
      · exact runSteps_trace_ne_nil env _ _ (by simpa [loadStepsFull, loadStepsMinimal,
          irrelevantInfoSteps] using h2)
      · exact runSteps_trace_ne_nil env _ _ (by simpa [loadStepsMinimal] using h2)
    · intro h
      have hg : (r.isNone || p.isNone) = true := by
        rcases h with h | h <;> simp [h]
      simp [loadPlayer, hg]
  · intro db id hdb
    simp [loadPlayerById, hdb, loadPlayer]

/-- Claim C7 evaluation: a concrete lookup with no matching row makes
loadPlayerById fail with no step executed. -/
theorem load_null_guard_witness :
    loadPlayerById (fun _ => none) (some playerA) 5 false loadEnvAllOk = (false, []) :=
  (load_null_guard (some playerA) none false loadEnvAllOk).2 (fun _ => none) 5 rfl

/-- Claim C5 counterexample: guid 7 is not tracked in the empty presence
state, yet a logout call for it is not a no-op: it decrements the presence
counter from 0 to -1, so the state changes. -/
theorem markOffline_untracked_counterexample :
    (7 : Nat) ∉ (⟨[], 0, []⟩ : PresenceState).tracked
    ∧ updateOnlineStatus 1 7 false ⟨[], 0, []⟩ ≠ (⟨[], 0, []⟩ : PresenceState)
    ∧ (updateOnlineStatus 1 7 false ⟨[], 0, []⟩).counter = -1 := by
  decide

/-- Claim C5 (amended): markOffline for a non-zero identity that is neither
tracked as online nor present in the presence table leaves the tracked set
and the presence table unchanged and does not error, but it still
decrements the presence counter; only a zero identity makes the call a
complete no-op. -/
theorem markOffline_untracked (st : PresenceState) (worldId guid : Nat)
    (hg : guid ≠ 0) (ht : guid ∉ st.tracked) (hrow : ∀ r ∈ st.table, r.1 ≠ guid) :
    (updateOnlineStatus worldId guid false st).tracked = st.tracked
    ∧ (updateOnlineStatus worldId guid false st).table = st.table
    ∧ (updateOnlineStatus worldId guid false st).counter = st.counter - 1
    ∧ (∀ w s, updateOnlineStatus w 0 false s = s) := by
  have hstep : updateOnlineStatus worldId guid false st =
      ⟨st.tracked.erase guid, st.counter - 1,
       st.table.filter fun r => decide (r.1 ≠ guid ∨ r.2 ≠ worldId)⟩ := by
    simp [updateOnlineStatus, hg]
  have hfilter : ∀ t : List (Nat × Nat), (∀ r ∈ t, r.1 ≠ guid) →
      (t.filter fun r => decide (r.1 ≠ guid ∨ r.2 ≠ worldId)) = t := by
    intro t
    induction t with
    | nil => intro _; rfl
    | cons r rest ih =>
      intro hall
      have h1 : r.1 ≠ guid := hall r (List.mem_cons_self r rest)
      have h2 : ∀ q ∈ rest, q.1 ≠ guid := fun q hq => hall q (List.mem_cons_of_mem r hq)
      have hp : decide (r.1 ≠ guid ∨ r.2 ≠ worldId) = true := by
        simp [h1]
      rw [List.filter_cons, if_pos hp, ih h2]
  refine ⟨?_, ?_, ?_, ?_⟩
  · rw [hstep]
    exact List.erase_of_not_mem ht
  · rw [hstep]
    exact hfilter st.table hrow
  · rw [hstep]
  · intro w s
    simp [updateOnlineStatus]

/-- Claim C5 evaluation: a concrete logout for untracked guid 7 keeps the
tracked set and the table but decrements the counter. -/
theorem markOffline_untracked_witness :
    (updateOnlineStatus 1 7 false ⟨[2], 5, [(2, 1)]⟩).table
      = (⟨[2], 5, [(2, 1)]⟩ : PresenceState).table :=
  (markOffline_untracked ⟨[2], 5, [(2, 1)]⟩ 1 7 (by decide) (by decide) (by decide)).2.1

/-- Claim C6: for a non-zero identity not yet tracked, the first markOnline
call adds exactly one presence row, increments the counter exactly once and
records the identity; the second call in succession is a no-op; a call with
identity zero is a no-op, as is a call for an already-tracked identity. -/
theorem markOnline_idempotent (st : PresenceState) (worldId guid : Nat)
    (hg : guid ≠ 0) (ht : guid ∉ st.tracked) :
    updateOnlineStatus worldId guid true (updateOnlineStatus worldId guid true st)
      = updateOnlineStatus worldId guid true st
    ∧ (updateOnlineStatus worldId guid true st).counter = st.counter + 1
    ∧ (updateOnlineStatus worldId guid true st).table = st.table ++ [(guid, worldId)]
    ∧ (updateOnlineStatus worldId guid true st).tracked = guid :: st.tracked
    ∧ (∀ w s, updateOnlineStatus w 0 true s = s)
    ∧ (∀ w s g, g ∈ PresenceState.tracked s → updateOnlineStatus w g true s = s) := by
  have hcond : ¬ (((true : Bool) = true ∧ guid ∈ st.tracked) ∨ guid = 0) := by
    rintro (⟨-, h⟩ | h)
    · exact ht h
    · exact hg h
  have hfirst : updateOnlineStatus worldId guid true st =
      ⟨guid :: st.tracked, st.counter + 1, st.table ++ [(guid, worldId)]⟩ := by
    simp [updateOnlineStatus, hg, ht]
  refine ⟨?_, by rw [hfirst], by rw [hfirst], by rw [hfirst], ?_, ?_⟩
  · rw [hfirst]
    have hmem : guid ∈ guid :: st.tracked := List.mem_cons_self guid st.tracked
    simp [updateOnlineStatus, hmem]
  · intro w s
    simp [updateOnlineStatus]
  · intro w s g hmem
    simp [updateOnlineStatus, hmem]

/-- Claim C6 evaluation: two concrete logins for guid 7 from the empty state
produce the same state as one login, with one row and counter one. -/
theorem markOnline_idempotent_witness :
    updateOnlineStatus 1 7 true (updateOnlineStatus 1 7 true ⟨[], 0, []⟩)
      = updateOnlineStatus 1 7 true ⟨[], 0, []⟩ :=
  (markOnline_idempotent ⟨[], 0, []⟩ 1 7 (by decide) (by decide)).1

/-- Claim C9: when the requested character name carries a non-zero deletion
marker in the resolved player set, gameWorldAuthentication fails and yields
no account identity, whatever the configured auth type and the other
collaborator outcomes. -/
theorem auth_rejects_deleted (authType : String) (acc : Account) (password characterName : String)
    (h : acc.deletion characterName ≠ 0) :
    gameWorldAuthentication authType acc password characterName = none := by
  unfold gameWorldAuthentication gameWorldAuthenticationTail
  split_ifs <;> simp_all

/-- Claim C9 evaluation: a concrete account whose requested character has
deletion marker 1 is rejected even though every other check passes. -/
theorem auth_rejects_deleted_witness :
    gameWorldAuthentication "password" ⟨true, true, true, fun _ => true, true, fun _ => 1, 42⟩
      "pw" "Bob" = none :=
  auth_rejects_deleted "password" ⟨true, true, true, fun _ => true, true, fun _ => 1, 42⟩
    "pw" "Bob" (by decide)

/-- Claim C10: getGuidByName returns 0 exactly when the lookup finds no
matching row or the stored id is itself 0, so 0 is the not-found sentinel
(no error is signalled) and is indistinguishable from a stored player id
of 0. -/
theorem getGuidByName_sentinel (db : String → Option Nat) (name : String) :
    getGuidByName db name = 0 ↔ (db name = none ∨ db name = some 0) := by
  unfold getGuidByName
  cases h : db name <;> simp
